import Mathlib

/-!
Shallow embedding of `src/slackbot.py` (class `SlackBot`): the event
classifier / command dispatcher (`_parse_rtm_event`, `_parse_command`), the
history paginator (`fetchHistory`) and the identifier resolver
(`initUserIdDict`, the `self.userIdDict[...]` lookups).

Conventions of the embedding:
* A Python `dict` of strings is an insertion-ordered association list
  (`Dict`): assignment to an existing key overwrites in place, assignment to
  a fresh key appends (`dictInsert`); subscript lookup is `dictGet?`, and a
  failed subscript is Python's `KeyError`, modelled as `BotError.keyError`.
* Exceptions are modelled with `Except BotError`: a `.error` value is an
  exception propagating out of the translated block; `try/except` becomes a
  `match` on that value.
* `sendMessage(msg, channel)` posts one outbound message; a run of the
  dispatcher is summarised by the ordered list of `Send`s it performs.  In
  the source, every `raise` relevant here happens before any send of the
  same run, so `Except BotError (List Send)` loses no sends.
* The upstream service (`client.api_call`) is modelled by the value it
  returns: a `MembersListing` for `users.list`, and a finite script
  `List PageRsp` of successive `conversations.history` responses consumed in
  call order (the cursor is threaded but its value never influences the
  script).  The external `fortune` subprocess is a `FortuneResult`.
* Wall-clock pacing (`sleep`) and log text are not observable here; logging
  that the claims mention is reflected in result fields
  (`Outcome.caught`, `InitResult.loggedCount`, `InitResult.loggedError`).
-/

/-- Exceptions that the translated code can raise. -/
inductive BotError where
  /-- Python `KeyError`, carrying the missing key. -/
  | keyError (key : String)
  /-- Python `ValueError` from `int(...)` on a non-numeric string. -/
  | valueError
  /-- `subprocess.TimeoutExpired` from `proc.communicate(timeout=5)`. -/
  | timeoutExpired
  /-- `OSError` from `subprocess.Popen("fortune", ...)` failing to launch. -/
  | invokeError
deriving DecidableEq, Repr

/-- A Python `dict` from id to display name, as an insertion-ordered
association list (`self.userIdDict`). -/
abbrev Dict := List (String × String)

/-- Python dict subscript: first (= unique) binding of the key, if any. -/
def dictGet? (d : Dict) (k : String) : Option String :=
  match d with
  | [] => none
  | (k', v) :: rest => if k' == k then some v else dictGet? rest k

/-- Python dict assignment `d[k] = v`: overwrite in place, else append. -/
def dictInsert (d : Dict) (k v : String) : Dict :=
  match d with
  | [] => [(k, v)]
  | (k', v') :: rest =>
    if k' == k then (k, v) :: rest else (k', v') :: dictInsert rest k v

/-- One outbound `sendMessage(msg, channel)` call: `(msg, channel)`. -/
abbrev Send := String × String

/-! ## Identifier resolver: `initUserIdDict` (slackbot.py lines 90-102) -/

/-- The `users.list` response consumed by `initUserIdDict`: `rsp["ok"]` and
`rsp["members"]`, each member contributing `(m["id"], m["real_name"])`. -/
structure MembersListing where
  ok : Bool
  members : List (String × String)
deriving DecidableEq, Repr

/-- Observable outcome of `initUserIdDict`: the dict afterwards, the count
logged by `"got {} users."` on success, and whether the failure branch
logged `"failed to fetch user list!"`.  The Python method returns `None`. -/
structure InitResult where
  userIdDict : Dict
  loggedCount : Option Nat
  loggedError : Bool
deriving DecidableEq, Repr

/-- `SlackBot.initUserIdDict` applied to a bot whose dict is `prior` and an
upstream answering `rsp`.  On `rsp["ok"]` it runs
`for m in rsp["members"]: self.userIdDict[m["id"]] = m["real_name"]` and logs
`len(self.userIdDict)`; otherwise it only logs an error. -/
def initUserIdDict (prior : Dict) (rsp : MembersListing) : InitResult :=
  if rsp.ok then
    let d := rsp.members.foldl (fun d m => dictInsert d m.1 m.2) prior
    ⟨d, some d.length, false⟩
  else
    ⟨prior, none, true⟩

/-- The resolver consulted by the rest of the code: the Python expression
`self.userIdDict[id]`, whose miss raises `KeyError(id)`. -/
def resolve (userIdDict : Dict) (id : String) : Except BotError String :=
  match dictGet? userIdDict id with
  | some name => .ok name
  | none => .error (.keyError id)

/-! ## History paginator: `fetchHistory` (slackbot.py lines 48-88) -/

/-- One raw message of a `conversations.history` page: the fields
`msg["user"]`, `msg["text"]`, `msg["ts"]` read unconditionally by the loop
body. -/
structure HistoryMsg where
  user : String
  text : String
  ts : String
deriving DecidableEq, Repr

/-- One `conversations.history` response: `rsp["ok"]`, `rsp["messages"]`,
`rsp["has_more"]`, and (read only when `has_more`)
`rsp["response_metadata"]["next_cursor"]` (`none` models the key missing). -/
structure PageRsp where
  ok : Bool
  messages : List HistoryMsg
  has_more : Bool
  next_cursor : Option String
deriving DecidableEq, Repr

/-- Zero-pad a numeral to two digits, as `strftime` does for `%m %d %H %M %S`. -/
def pad2 (n : Nat) : String :=
  if n < 10 then "0" ++ toString n else toString n

/-- Days since 1970-01-01 to `(year, month, day)` of the proleptic Gregorian
calendar (valid for the non-negative Unix timestamps the code handles);
embeds the calendar conversion inside `datetime.utcfromtimestamp`. -/
def civilFromDays (days : Nat) : Nat × Nat × Nat :=
  let z := days + 719468
  let era := z / 146097
  let doe := z % 146097
  let yoe := (doe - doe / 1460 + doe / 36524 - doe / 146096) / 365
  let y := yoe + era * 400
  let doy := doe - (365 * yoe + yoe / 4 - yoe / 100)
  let mp := (5 * doy + 2) / 153
  let d := doy - (153 * mp + 2) / 5 + 1
  let m := if mp < 10 then mp + 3 else mp - 9
  (if m ≤ 2 then y + 1 else y, m, d)

/-- `datetime.utcfromtimestamp(ts).strftime('%Y-%m-%d %H:%M:%S')`. -/
def formatUTC (ts : Nat) : String :=
  let days := ts / 86400
  let secs := ts % 86400
  let c := civilFromDays days
  toString c.1 ++ "-" ++ pad2 c.2.1 ++ "-" ++ pad2 c.2.2 ++ " " ++
    pad2 (secs / 3600) ++ ":" ++ pad2 (secs % 3600 / 60) ++ ":" ++ pad2 (secs % 60)

/-- `msg["ts"].split('.')[0]`: the characters before the first dot. -/
def tsIntPart (s : String) : String :=
  (s.toList.takeWhile (fun c => c != '.')).asString

/-- Python `int(...)` on the non-negative digit strings Slack timestamps
are: `none` is a `ValueError`. -/
def pyInt? (s : String) : Option Nat :=
  if s.toList.isEmpty then none
  else
    s.toList.foldl
      (fun acc c =>
        match acc with
        | none => none
        | some n => if c.isDigit then some (n * 10 + (c.toNat - 48)) else none)
      (some 0)

/-- Normalisation of one message (loop body, lines 73-78):
`user = self.userIdDict[msg["user"]]` (a miss raises `KeyError`), then
`ts = int(msg["ts"].split('.')[0])` and the `"{date} {user}: {text}"` line. -/
def normMsg (dict : Dict) (m : HistoryMsg) : Except BotError String :=
  match dictGet? dict m.user with
  | none => .error (.keyError m.user)
  | some user =>
    match pyInt? (tsIntPart m.ts) with
    | none => .error .valueError
    | some ts => .ok (formatUTC ts ++ " " ++ user ++ ": " ++ m.text)

/-- `for msg in rsp["messages"]`: normalise in order; an exception aborts the
whole page (and, unhandled, the whole `fetchHistory` call). -/
def normPage (dict : Dict) : List HistoryMsg → Except BotError (List String)
  | [] => .ok []
  | m :: ms =>
    match normMsg dict m with
    | .error e => .error e
    | .ok line =>
      match normPage dict ms with
      | .error e => .error e
      | .ok rest => .ok (line :: rest)

/-- The `while hasMore` loop of `fetchHistory`, run against the script
`pages` of upcoming upstream responses (one consumed per `api_call`).  The
`Nat` counts the calls made.  `rsp["ok"]` false sets `hasMore = False`,
logs, and exits with the accumulator; `has_more` true requires
`rsp["response_metadata"]["next_cursor"]` before the next call; the `[]`
case (script exhausted) is outside every run the theorems describe. -/
def fetchHistoryGo (dict : Dict) (acc : List String) :
    List PageRsp → Except BotError (List String × Nat)
  | [] => .ok (acc, 0)
  | rsp :: rest =>
    if rsp.ok then
      match normPage dict rsp.messages with
      | .error e => .error e
      | .ok newLines =>
        if rsp.has_more then
          match rsp.next_cursor with
          | none => .error (.keyError "next_cursor")
          | some _ =>
            match fetchHistoryGo dict (acc ++ newLines) rest with
            | .error e => .error e
            | .ok (msgs, n) => .ok (msgs, n + 1)
        else .ok (acc ++ newLines, 1)
    else .ok (acc, 1)

/-- `SlackBot.fetchHistory(channel)` with the upstream scripted by `pages`:
starts with `msgs = []`, `hasMore = True`, returns the accumulated lines
and the number of page fetches issued. -/
def fetchHistory (dict : Dict) (pages : List PageRsp) :
    Except BotError (List String × Nat) :=
  fetchHistoryGo dict [] pages

/-! ## Command dispatcher: `_parse_command` (slackbot.py lines 168-204) -/

/-- Result of the external `fortune` invocation
(`Popen` + `communicate(timeout=5)`). -/
inductive FortuneResult where
  /-- `communicate` returned within the bound; `out` is its stdout. -/
  | ok (out : String)
  /-- the 5-second bound expired: `communicate` raises `TimeoutExpired`. -/
  | timeout
  /-- `Popen` itself failed (e.g. no `fortune` binary): raises `OSError`. -/
  | invokeError
deriving DecidableEq, Repr

/-- The fixed command table (a Python dict literal, insertion-ordered). -/
def commands : List (String × String) :=
  [("help", "displays this list of commands"),
   ("fortune", "print a random, hopefully interesting, adage"),
   ("echo", "test command")]

/-- The composed help text: header, then one `"{key} - {desc}"` line per
command in table order, wrapped in a triple-backtick block. -/
def help_text : String :=
  (commands.foldl (fun acc kv => acc ++ kv.1 ++ " - " ++ kv.2 ++ "\n")
    ("List of available commands:\n" ++ "```\n")) ++ "```"

/-- Python `str.strip()`: drop leading and trailing whitespace. -/
def pyStrip (s : String) : String :=
  ((s.toList.dropWhile Char.isWhitespace).reverse.dropWhile
    Char.isWhitespace).reverse.asString

/-- Worker for `pySplit`: `cur` holds the (reversed) current token. -/
def pySplitAux : List Char → List Char → List (List Char)
  | [], cur => if cur.isEmpty then [] else [cur.reverse]
  | c :: cs, cur =>
    if c.isWhitespace then
      if cur.isEmpty then pySplitAux cs [] else cur.reverse :: pySplitAux cs []
    else pySplitAux cs (c :: cur)

/-- Python `str.split()` with no separator: split on whitespace runs,
discarding empty pieces. -/
def pySplit (s : String) : List String :=
  (pySplitAux s.toList []).map List.asString

/-- Python `s[1:]`: drop the first character. -/
def pyDropFirst (s : String) : String :=
  (s.toList.drop 1).asString

/-- Python `s.startswith(".")`. -/
def startsWithDot (s : String) : Bool :=
  match s.toList with
  | '.' :: _ => true
  | _ => false

/-- Python `repr` of a simple string (no quotes/escapes inside), as used by
`str(list_of_str)`. -/
def pyReprStr (s : String) : String := "'" ++ s ++ "'"

/-- Python `str` of a list of strings, the `echo` reply for the argument
tokens after `del cmd_split[0]`. -/
def pyStrList (xs : List String) : String :=
  "[" ++ String.intercalate ", " (xs.map pyReprStr) ++ "]"

/-- `SlackBot._parse_command(cmd, userId)` with the fortune capability
`fortune`: tokenise `(cmd.strip()[1:]).split()`, return the sends performed,
or the exception that escapes (only the `fortune` branch can raise, and it
raises before sending anything). -/
def parse_command (fortune : FortuneResult) (cmd userId : String) :
    Except BotError (List Send) :=
  match pySplit (pyDropFirst (pyStrip cmd)) with
  | [] => .ok []
  | name :: args =>
    if !(commands.any (fun kv => kv.1 == name)) then
      .ok [("unknown command: *" ++ name ++ "*", userId), (help_text, userId)]
    else if name == "help" then
      .ok [(help_text, userId)]
    else if name == "echo" then
      .ok [(pyStrList args, userId)]
    else if name == "fortune" then
      match fortune with
      | .ok out => .ok [(out, userId)]
      | .timeout => .error .timeoutExpired
      | .invokeError => .error .invokeError
    else
      .ok []

/-! ## Event classifier: `_parse_rtm_event` (slackbot.py lines 121-166) -/

/-- One raw RTM event element (`event[0]`): each field is `some` when the
corresponding key is present.  `previous_message_text` stands for
`rsp["previous_message"]["text"]` and `message_text` for
`rsp["message"]["text"]` (the outer key's absence is the `KeyError` case). -/
structure RawMsg where
  type : Option String := none
  subtype : Option String := none
  previous_message_text : Option String := none
  message_text : Option String := none
  text : Option String := none
  user : Option String := none
deriving DecidableEq, Repr

/-- The body of the `try:` block of `_parse_rtm_event`: classify `event[0]`,
performing the dict lookups and, for a plain message starting with `"."`,
the command dispatch.  `.error` is an exception escaping the block. -/
def parse_rtm_event_body (fortune : FortuneResult) (userIdDict : Dict)
    (event : List RawMsg) : Except BotError (List Send) :=
  match event with
  | [] => .ok []
  | rsp :: _ =>
    match rsp.type with
    | none => .error (.keyError "type")
    | some ty =>
      if ty == "message" then
        match rsp.subtype with
        | some st =>
          if st == "message_deleted" then
            match rsp.previous_message_text with
            | none => .error (.keyError "previous_message")
            | some _ => .ok []
          else if st == "message_changed" then
            match rsp.previous_message_text with
            | none => .error (.keyError "previous_message")
            | some _ =>
              match rsp.message_text with
              | none => .error (.keyError "message")
              | some _ => .ok []
          else
            .ok []
        | none =>
          match rsp.text with
          | none => .error (.keyError "text")
          | some msg =>
            match rsp.user with
            | none => .error (.keyError "user")
            | some userId =>
              match dictGet? userIdDict userId with
              | none => .error (.keyError userId)
              | some _ =>
                if startsWithDot msg then parse_command fortune msg userId
                else .ok []
      else if ty == "hello" then .ok []
      else if ty == "user_typing" then
        match rsp.user with
        | none => .error (.keyError "user")
        | some u =>
          match dictGet? userIdDict u with
          | none => .error (.keyError u)
          | some _ => .ok []
      else if ty == "desktop_notification" then .ok []
      else .ok []

/-- Observable outcome of one `_parse_rtm_event` call. -/
inductive Outcome where
  /-- returned normally, having performed `sends`. -/
  | normal (sends : List Send)
  /-- a `KeyError key` was raised and caught by the `except KeyError`
  clause, which logged the error and the raw `payload`; the caller
  (the session loop) continues with the next event. -/
  | caught (key : String) (payload : List RawMsg)
  /-- an exception the clause does not match escapes `_parse_rtm_event`. -/
  | raised (e : BotError)
deriving DecidableEq, Repr

/-- `SlackBot._parse_rtm_event(event)`: the `try`/`except KeyError`
wrapper around the classification body. -/
def parse_rtm_event (fortune : FortuneResult) (userIdDict : Dict)
    (event : List RawMsg) : Outcome :=
  match parse_rtm_event_body fortune userIdDict event with
  | .ok sends => .normal sends
  | .error (.keyError k) => .caught k event
  | .error e => .raised e

/-! ## Statement helpers -/

/-- The normalised lines of one successfully normalised page (used to state
what a successful `fetchHistory` run accumulates). -/
def okLines (dict : Dict) (p : PageRsp) : List String :=
  match normPage dict p.messages with
  | .ok ls => ls
  | .error _ => []

/-- Concatenation of the pages' normalised lines, in arrival order. -/
def pagesLines (dict : Dict) (ps : List PageRsp) : List String :=
  ps.foldr (fun p acc => okLines dict p ++ acc) []

/-- A page response that keeps the pagination going: successful, flagged
`has_more`, carrying a continuation cursor, and normalising cleanly. -/
def goodPage (dict : Dict) (p : PageRsp) : Prop :=
  p.ok = true ∧ p.has_more = true ∧ p.next_cursor.isSome = true ∧
    normPage dict p.messages = Except.ok (okLines dict p)

/-- Whether `p` occurs as a prefix of `s` (character lists). -/
def isPrefixList (p s : List Char) : Bool :=
  match p, s with
  | [], _ => true
  | _ :: _, [] => false
  | a :: as, b :: bs => a == b && isPrefixList as bs

/-- Whether `p` occurs as a contiguous run somewhere in `s`. -/
def hasSubList (p : List Char) : List Char → Bool
  | [] => isPrefixList p []
  | c :: t => isPrefixList p (c :: t) || hasSubList p t

/-- Whether the string `pat` occurs inside `s`. -/
def containsStr (s pat : String) : Bool :=
  hasSubList pat.toList s.toList

/-! ## Lemmas about the dictionary -/

theorem dictGet?_dictInsert_self (d : Dict) (k v : String) :
    dictGet? (dictInsert d k v) k = some v := by
  induction d with
  | nil => simp [dictInsert, dictGet?]
  | cons p rest ih =>
    obtain ⟨k', v'⟩ := p
    by_cases h : k' = k
    · subst h
      simp [dictInsert, dictGet?]
    · simp [dictInsert, dictGet?, h, ih]

theorem dictGet?_dictInsert_ne (d : Dict) (k v q : String) (h : q ≠ k) :
    dictGet? (dictInsert d k v) q = dictGet? d q := by
  induction d with
  | nil =>
    simp [dictInsert, dictGet?, (Ne.symm h : k ≠ q)]
  | cons p rest ih =>
    obtain ⟨k', v'⟩ := p
    by_cases hk : k' = k
    · subst hk
      simp [dictInsert, dictGet?, (Ne.symm h : k' ≠ q)]
    · by_cases hq : k' = q
      · subst hq
        simp [dictInsert, dictGet?, hk]
      · simp [dictInsert, dictGet?, hk, hq, ih]

/-- Folding the member list into the dict never touches keys that are not
listed. -/
theorem dictGet?_load_not_mem (ms : List (String × String)) (d : Dict)
    (id : String) (h : ∀ m ∈ ms, m.1 ≠ id) :
    dictGet? (ms.foldl (fun d m => dictInsert d m.1 m.2) d) id =
      dictGet? d id := by
  induction ms generalizing d with
  | nil => rfl
  | cons m rest ih =>
    rw [List.foldl_cons,
      ih _ (fun x hx => h x (List.mem_cons_of_mem _ hx)),
      dictGet?_dictInsert_ne _ _ _ _ (Ne.symm (h m (List.mem_cons_self _ _)))]

/-- Folding a member list with pairwise-distinct ids binds every listed id
to its listed name. -/
theorem dictGet?_load_mem (ms : List (String × String)) (id v : String) :
    (id, v) ∈ ms → (ms.map Prod.fst).Nodup → ∀ d : Dict,
      dictGet? (ms.foldl (fun d m => dictInsert d m.1 m.2) d) id = some v := by
  induction ms with
  | nil => intro h; cases h
  | cons m rest ih =>
    intro hmem hnodup d
    have hsplit : m.1 ∉ rest.map Prod.fst ∧ (rest.map Prod.fst).Nodup := by
      rw [List.map_cons, List.nodup_cons] at hnodup
      exact hnodup
    rw [List.foldl_cons]
    rcases List.mem_cons.mp hmem with heq | hmem'
    · have hid : m.1 = id := by rw [← heq]
      have hrest : ∀ x ∈ rest, x.1 ≠ id := by
        intro x hx hxid
        exact hsplit.1 (hid ▸ hxid ▸ List.mem_map_of_mem Prod.fst hx)
      rw [dictGet?_load_not_mem rest _ id hrest, ← heq,
        dictGet?_dictInsert_self]
    · exact ih hmem' hsplit.2 _

/-! ## Lemmas about page normalisation and the pagination loop -/

/-- A page whose prefix normalises but whose next message has an unknown
sender fails with that sender's `KeyError`. -/
theorem normPage_append_err (dict : Dict) (pre : List HistoryMsg)
    (m : HistoryMsg) (post : List HistoryMsg)
    (hpre : ∃ ls, normPage dict pre = Except.ok ls)
    (hm : dictGet? dict m.user = none) :
    normPage dict (pre ++ m :: post) =
      Except.error (BotError.keyError m.user) := by
  induction pre with
  | nil =>
    simp [normPage, normMsg, hm]
  | cons x xs ih =>
    obtain ⟨ls, hls⟩ := hpre
    cases hx : normMsg dict x with
    | error e =>
      exfalso
      simp [normPage, hx] at hls
    | ok line =>
      cases hxs : normPage dict xs with
      | error e =>
        exfalso
        simp [normPage, hx, hxs] at hls
      | ok rest =>
        rw [List.cons_append]
        simp [normPage, hx, ih ⟨rest, hxs⟩]

/-- Running the pagination loop against a script of `ps` full pages, a
final page with `has_more = false`, and arbitrary further responses: the
loop accumulates exactly the scripted pages' lines and issues exactly
`ps.length + 1` calls, touching nothing after the final page. -/
theorem fetchHistoryGo_script (dict : Dict) (last : PageRsp)
    (extra : List PageRsp)
    (hlast : last.ok = true ∧ last.has_more = false ∧
      normPage dict last.messages = Except.ok (okLines dict last)) :
    ∀ ps : List PageRsp, (∀ p ∈ ps, goodPage dict p) → ∀ acc,
      fetchHistoryGo dict acc (ps ++ last :: extra) =
        Except.ok (acc ++ pagesLines dict (ps ++ [last]), ps.length + 1) := by
  intro ps
  induction ps with
  | nil =>
    intro _ acc
    obtain ⟨hok, hmore, hnorm⟩ := hlast
    simp [fetchHistoryGo, hok, hmore, hnorm, pagesLines]
  | cons p ps ih =>
    intro hps acc
    obtain ⟨hok, hmore, hcur, hnorm⟩ := hps p (List.mem_cons_self _ _)
    obtain ⟨c, hc⟩ := Option.isSome_iff_exists.mp hcur
    rw [List.cons_append]
    simp only [fetchHistoryGo, hok, hmore, hnorm, hc, if_true]
    rw [ih (fun q hq => hps q (List.mem_cons_of_mem _ hq)) (acc ++ okLines dict p)]
    simp [pagesLines, List.append_assoc]

/-! ## Claims -/

/-- C1: a non-empty raw event in which an expected field is absent makes
the classification body fail with a `KeyError` (the code's
`MalformedEvent`) — e.g. a typing notice without `user`, or a deletion
without `previous_message` — and every such failure is caught by the
`except KeyError` clause of `_parse_rtm_event`, which logs it together
with the raw payload and returns normally, so the failure never propagates
out of `_parse_rtm_event` and the session loop continues with the next
event. -/
theorem C1_malformed_event_caught :
    (∀ (f : FortuneResult) (d : Dict) (ev : List RawMsg) (k : String),
      parse_rtm_event_body f d ev = Except.error (BotError.keyError k) →
        parse_rtm_event f d ev = Outcome.caught k ev) ∧
    (∀ (f : FortuneResult) (d : Dict),
      parse_rtm_event_body f d [{ type := some "user_typing" }] =
        Except.error (BotError.keyError "user")) ∧
    (∀ (f : FortuneResult) (d : Dict),
      parse_rtm_event_body f d
          [{ type := some "message", subtype := some "message_deleted" }] =
        Except.error (BotError.keyError "previous_message")) := by
  refine ⟨fun f d ev k h => ?_, fun f d => rfl, fun f d => rfl⟩
  simp [parse_rtm_event, h]

/-- Witness for C1 at a concrete input: a typing notice with no `user`
field ends as a caught-and-logged `KeyError`, not a crash. -/
theorem C1_malformed_event_caught_witness :
    parse_rtm_event FortuneResult.invokeError []
        [{ type := some "user_typing" }] =
      Outcome.caught "user" [{ type := some "user_typing" }] :=
  C1_malformed_event_caught.1 FortuneResult.invokeError []
    [{ type := some "user_typing" }] "user" rfl

/-- C2: against an upstream scripted to answer `ps.length` successful pages
flagged `has_more = true` and then one successful page flagged
`has_more = false`, `fetchHistory` terminates with the concatenation of all
`ps.length + 1` pages' normalised messages in arrival order, and it issues
exactly `ps.length + 1` page fetches — none after the page whose `has_more`
flag is false, whatever further responses (`extra`) the upstream would
still have given. -/
theorem C2_fetchHistory_pagination (dict : Dict) (ps : List PageRsp)
    (last : PageRsp) (extra : List PageRsp)
    (hps : ∀ p ∈ ps, goodPage dict p)
    (hlast : last.ok = true ∧ last.has_more = false ∧
      normPage dict last.messages = Except.ok (okLines dict last)) :
    fetchHistory dict (ps ++ last :: extra) =
      Except.ok (pagesLines dict (ps ++ [last]), ps.length + 1) := by
  have h := fetchHistoryGo_script dict last extra hlast ps hps []
  simpa [fetchHistory] using h

/-- Witness for C2 at a concrete input: one `has_more = true` page, one
final page, and one extra scripted response that is never fetched (2 calls
for 3 scripted responses). -/
theorem C2_fetchHistory_pagination_witness :
    fetchHistory [("U1", "Alice")]
        [⟨true, [⟨"U1", "hi", "0.000"⟩], true, some "c"⟩,
         ⟨true, [⟨"U1", "yo", "1.5"⟩], false, none⟩,
         ⟨true, [⟨"U1", "zz", "2.0"⟩], false, none⟩] =
      Except.ok
        (["1970-01-01 00:00:00 Alice: hi", "1970-01-01 00:00:01 Alice: yo"],
          2) :=
  Eq.trans
    (C2_fetchHistory_pagination [("U1", "Alice")]
      [⟨true, [⟨"U1", "hi", "0.000"⟩], true, some "c"⟩]
      ⟨true, [⟨"U1", "yo", "1.5"⟩], false, none⟩
      [⟨true, [⟨"U1", "zz", "2.0"⟩], false, none⟩]
      (by
        intro p hp
        rw [List.mem_singleton] at hp
        subst hp
        exact ⟨rfl, rfl, rfl, rfl⟩)
      ⟨rfl, rfl, rfl⟩)
    rfl

/-- C3: when the first page succeeds with `has_more = true` and the second
upstream call reports failure (`ok = false`), `fetchHistory` terminates the
loop and returns exactly the first page's normalised messages (after 2
calls) — partial results instead of an exception that loses page 1. -/
theorem C3_fetchHistory_partial_results (dict : Dict) (p1 p2 : PageRsp)
    (rest : List PageRsp)
    (h1ok : p1.ok = true) (h1more : p1.has_more = true)
    (h1cur : p1.next_cursor.isSome = true)
    (h1norm : normPage dict p1.messages = Except.ok (okLines dict p1))
    (h2 : p2.ok = false) :
    fetchHistory dict (p1 :: p2 :: rest) =
      Except.ok (okLines dict p1, 2) := by
  obtain ⟨c, hc⟩ := Option.isSome_iff_exists.mp h1cur
  simp [fetchHistory, fetchHistoryGo, h1ok, h1more, h1norm, hc, h2]

/-- Witness for C3 at a concrete input. -/
theorem C3_fetchHistory_partial_results_witness :
    fetchHistory [("U1", "Alice")]
        [⟨true, [⟨"U1", "hi", "0.000"⟩], true, some "c"⟩,
         ⟨false, [], false, none⟩] =
      Except.ok (["1970-01-01 00:00:00 Alice: hi"], 2) :=
  Eq.trans
    (C3_fetchHistory_partial_results [("U1", "Alice")]
      ⟨true, [⟨"U1", "hi", "0.000"⟩], true, some "c"⟩
      ⟨false, [], false, none⟩ [] rfl rfl rfl rfl rfl)
    rfl

/-- C4 counterexample: a successful load over a non-empty prior mapping
does not overwrite the prior contents — the stale entry `("U9", "X")`
survives a load of the one-member listing `[("U1", "A")]` — and what the
code logs is the total mapping size (2), not the count of entries loaded
(1); the Python method returns `None`, not a count. -/
theorem C4_initUserIdDict_counterexample :
    (initUserIdDict [("U9", "X")] ⟨true, [("U1", "A")]⟩).userIdDict =
        [("U9", "X"), ("U1", "A")] ∧
      dictGet?
          (initUserIdDict [("U9", "X")] ⟨true, [("U1", "A")]⟩).userIdDict
          "U9" =
        some "X" ∧
      (initUserIdDict [("U9", "X")] ⟨true, [("U1", "A")]⟩).loggedCount =
        some 2 :=
  ⟨rfl, rfl, rfl⟩

/-- C4 as amended: on a successful listing, `initUserIdDict` inserts every
listed `(id, real_name)` into the mapping — an unlisted id keeps its prior
binding, a listed id (ids pairwise distinct) maps to its listed name — and
it logs the total size of the resulting mapping (returning nothing); on a
non-success listing it logs an error and leaves the mapping unchanged
(aborting the operation without raising). -/
theorem C4_initUserIdDict_amended (prior : Dict) (rsp : MembersListing) :
    (rsp.ok = true →
      (∀ id, (∀ m ∈ rsp.members, m.1 ≠ id) →
        dictGet? (initUserIdDict prior rsp).userIdDict id =
          dictGet? prior id) ∧
      (∀ id v, (id, v) ∈ rsp.members → (rsp.members.map Prod.fst).Nodup →
        dictGet? (initUserIdDict prior rsp).userIdDict id = some v) ∧
      (initUserIdDict prior rsp).loggedCount =
        some (initUserIdDict prior rsp).userIdDict.length ∧
      (initUserIdDict prior rsp).loggedError = false) ∧
    (rsp.ok = false → initUserIdDict prior rsp = ⟨prior, none, true⟩) := by
  constructor
  · intro hok
    refine ⟨fun id habs => ?_, fun id v hmem hnodup => ?_, ?_, ?_⟩
    · simp only [initUserIdDict, hok, if_true]
      exact dictGet?_load_not_mem rsp.members prior id habs
    · simp only [initUserIdDict, hok, if_true]
      exact dictGet?_load_mem rsp.members id v hmem hnodup prior
    · simp [initUserIdDict, hok]
    · simp [initUserIdDict, hok]
  · intro hok
    simp [initUserIdDict, hok]

/-- Witness for the amended C4 at a concrete input: with prior mapping
`[("U9", "X")]` and a successful listing of `[("U1", "A")]`, the listed id
resolves to its listed name. -/
theorem C4_initUserIdDict_amended_witness :
    dictGet? (initUserIdDict [("U9", "X")] ⟨true, [("U1", "A")]⟩).userIdDict
        "U1" =
      some "A" :=
  ((C4_initUserIdDict_amended [("U9", "X")] ⟨true, [("U1", "A")]⟩).1
    rfl).2.1 "U1" "A" (by decide) (by decide)

/-- C5: a command whose name token is not in the fixed table produces
exactly two sends to the issuer, in order: the `unknown command: *name*`
notice, then the help text; and the help text lists every known command
name with its description, newline-joined inside a triple-backtick block. -/
theorem C5_unknown_command_two_replies (f : FortuneResult)
    (cmd u name : String) (args : List String)
    (hsplit : pySplit (pyDropFirst (pyStrip cmd)) = name :: args)
    (hunknown : commands.any (fun kv => kv.1 == name) = false) :
    parse_command f cmd u =
        Except.ok
          [("unknown command: *" ++ name ++ "*", u), (help_text, u)] ∧
      (∀ kv ∈ commands,
        containsStr help_text (kv.1 ++ " - " ++ kv.2) = true) ∧
      help_text =
        "List of available commands:\n```\nhelp - displays this list of commands\nfortune - print a random, hopefully interesting, adage\necho - test command\n```" := by
  refine ⟨?_, by decide, rfl⟩
  simp [parse_command, hsplit, hunknown]

/-- Witness for C5 at the concrete input `dispatch(".xyz", u)`. -/
theorem C5_unknown_command_two_replies_witness :
    parse_command (FortuneResult.ok "adage") ".xyz" "U7" =
      Except.ok
        [("unknown command: *xyz*", "U7"), (help_text, "U7")] :=
  (C5_unknown_command_two_replies (FortuneResult.ok "adage") ".xyz" "U7"
    "xyz" [] rfl rfl).1

/-- C6: a successful page containing a message whose sender id is absent
from the user directory makes `fetchHistory` fail with that sender's
`KeyError` (the code's `UnknownIdentifier`): the page's normalisation is
aborted and the failure propagates out of `fetchHistory` — no placeholder
display name is substituted. -/
theorem C6_unresolved_sender_propagates (dict : Dict) (p : PageRsp)
    (rest : List PageRsp) (pre : List HistoryMsg) (m : HistoryMsg)
    (post : List HistoryMsg)
    (hok : p.ok = true) (hmsgs : p.messages = pre ++ m :: post)
    (hpre : ∃ ls, normPage dict pre = Except.ok ls)
    (hm : dictGet? dict m.user = none) :
    fetchHistory dict (p :: rest) =
      Except.error (BotError.keyError m.user) := by
  simp [fetchHistory, fetchHistoryGo, hok, hmsgs,
    normPage_append_err dict pre m post hpre hm]

/-- Witness for C6 at a concrete input: the second message's sender `"U2"`
is not in the directory. -/
theorem C6_unresolved_sender_propagates_witness :
    fetchHistory [("U1", "Alice")]
        [⟨true, [⟨"U1", "hi", "0.000"⟩, ⟨"U2", "yo", "1.0"⟩], false, none⟩] =
      Except.error (BotError.keyError "U2") :=
  C6_unresolved_sender_propagates [("U1", "Alice")]
    ⟨true, [⟨"U1", "hi", "0.000"⟩, ⟨"U2", "yo", "1.0"⟩], false, none⟩ []
    [⟨"U1", "hi", "0.000"⟩] ⟨"U2", "yo", "1.0"⟩ [] rfl rfl
    ⟨["1970-01-01 00:00:00 Alice: hi"], rfl⟩ rfl

/-- C7: a command message that strips down to the lone sentinel tokenises
to the empty list, and dispatch is a no-op: no reply is sent and no
exception is raised. -/
theorem C7_lone_sentinel_noop (f : FortuneResult) (cmd u : String)
    (h : pySplit (pyDropFirst (pyStrip cmd)) = []) :
    parse_command f cmd u = Except.ok [] := by
  simp [parse_command, h]

/-- Witness for C7 at the concrete input `" . "` (sentinel with
surrounding whitespace). -/
theorem C7_lone_sentinel_noop_witness :
    parse_command FortuneResult.timeout " . " "U1" = Except.ok [] :=
  C7_lone_sentinel_noop FortuneResult.timeout " . " "U1" rfl

/-- C8: resolution is a pure lookup on the directory built by one load
from the empty initial dict: resolving the same id twice gives the same
result, and an id absent from the load fails with its `KeyError` (the
code's `UnknownIdentifier`) every time. -/
theorem C8_resolve_pure (listing : MembersListing)
    (hok : listing.ok = true) (id : String) :
    resolve (initUserIdDict [] listing).userIdDict id =
        resolve (initUserIdDict [] listing).userIdDict id ∧
      ((∀ m ∈ listing.members, m.1 ≠ id) →
        resolve (initUserIdDict [] listing).userIdDict id =
          Except.error (BotError.keyError id)) := by
  refine ⟨rfl, fun habs => ?_⟩
  have h := dictGet?_load_not_mem listing.members [] id habs
  simp only [initUserIdDict, hok, if_true]
  simp [resolve, h, dictGet?]

/-- Witness for C8 at a concrete input: after loading `[("U1", "Alice")]`,
the absent id `"U2"` fails with its `KeyError`. -/
theorem C8_resolve_pure_witness :
    resolve (initUserIdDict [] ⟨true, [("U1", "Alice")]⟩).userIdDict "U2" =
      Except.error (BotError.keyError "U2") :=
  (C8_resolve_pure ⟨true, [("U1", "Alice")]⟩ rfl "U2").2 (by decide)

/-- C9 (code evaluated at the failing input): when the external `fortune`
invocation exceeds its 5-second bound or fails to launch, `_parse_command`
raises (`TimeoutExpired` / `OSError`) having sent no reply at all, and the
exception escapes `_parse_rtm_event`, whose handler catches only
`KeyError` — the error is neither reported to the issuer nor contained, it
is left to crash the session loop. -/
theorem C9_fortune_error_not_reported :
    parse_command FortuneResult.timeout ".fortune" "U1" =
        Except.error BotError.timeoutExpired ∧
      parse_command FortuneResult.invokeError ".fortune" "U1" =
        Except.error BotError.invokeError ∧
      parse_rtm_event FortuneResult.timeout [("U1", "Alice")]
          [{ type := some "message", text := some ".fortune",
             user := some "U1" }] =
        Outcome.raised BotError.timeoutExpired :=
  ⟨rfl, rfl, rfl⟩

/-- C10: a plain message whose sender id is absent from the user directory
is dropped with a caught-and-logged `KeyError` before the sentinel check:
whatever the text (even one starting with `"."`), the dispatcher is never
reached and no reply is sent, because the display-name lookup for logging
precedes `msg.startswith(".")` and its failure is caught by the
surrounding handler. -/
theorem C10_unresolved_sender_event_dropped (f : FortuneResult) (d : Dict)
    (msg uid : String) (h : dictGet? d uid = none) :
    parse_rtm_event f d
        [{ type := some "message", text := some msg, user := some uid }] =
      Outcome.caught uid
        [{ type := some "message", text := some msg, user := some uid }] := by
  simp [parse_rtm_event, parse_rtm_event_body, h]

/-- Witness for C10 at a concrete input: a `".help"` command message from
the unknown sender `"U1"` against an empty directory is dropped, with no
reply. -/
theorem C10_unresolved_sender_event_dropped_witness :
    parse_rtm_event FortuneResult.timeout []
        [{ type := some "message", text := some ".help",
           user := some "U1" }] =
      Outcome.caught "U1"
        [{ type := some "message", text := some ".help",
           user := some "U1" }] :=
  C10_unresolved_sender_event_dropped FortuneResult.timeout [] ".help" "U1"
    rfl
